import Mathlib

/-
Verification of the Teemake interactive build wizard (src/teemake.py).

The Python program is shallowly embedded: pure fragments become Lean
functions, interactive or process-running fragments become functions of the
externally supplied data (user input lists, process outcomes), and Python
dictionaries become ordered association lists with Python's
insertion-order/replace semantics.
-/

set_option autoImplicit false

namespace Teemake

/-! ## Python string primitives

Helpers that model the exact Python string operations used by the source.
Case mapping is modelled for the ASCII range, which covers every token the
program compares against. -/

/-- Python whitespace characters, as used by `str.strip` / `str.split`. -/
def pyIsSpace (c : Char) : Bool :=
  c = ' ' || c = '\t' || c = '\n' || c = '\r' || c = '\x0b' || c = '\x0c'

/-- Strip leading and trailing whitespace from a character list. -/
def stripList (l : List Char) : List Char :=
  ((l.dropWhile pyIsSpace).reverse.dropWhile pyIsSpace).reverse

/-- Python `str.strip()`. -/
def pyStrip (s : String) : String :=
  ⟨stripList s.data⟩

/-- Python `str.upper()` (ASCII range). -/
def pyUpper (s : String) : String :=
  ⟨s.data.map Char.toUpper⟩

/-- Python `str.lower()` (ASCII range). -/
def pyLower (s : String) : String :=
  ⟨s.data.map Char.toLower⟩

/-- Python `str.isdigit()` (ASCII digits): nonempty and all digits. -/
def pyIsDigit (s : String) : Bool :=
  !s.data.isEmpty && s.data.all Char.isDigit

/-- Python `int(...)` on a digit string (decimal). -/
def strToNat (s : String) : Nat :=
  s.data.foldl (fun n c => n * 10 + (c.toNat - 48)) 0

/-- Membership of a character in a character list (Python `c in s`). -/
def hasChar : List Char → Char → Bool
  | [], _ => false
  | c :: t, x => c = x || hasChar t x

/-- Membership of a string in a string list (Python `v in [...]`). -/
def memStr : List String → String → Bool
  | [], _ => false
  | x :: t, v => if x = v then true else memStr t v

/-- Substring containment on character lists (Python `needle in haystack`). -/
def hasSub (needle : List Char) : List Char → Bool
  | [] => needle.isEmpty
  | c :: t => needle.isPrefixOf (c :: t) || hasSub needle t

/-- Python substring test `needle in haystack` on strings. -/
def strContains (haystack needle : String) : Bool :=
  hasSub needle.data haystack.data

/-- Python `str.split()` with no argument: split on whitespace runs,
discarding empty pieces. -/
def splitWsAux : List Char → List Char → List (List Char)
  | [], acc => if acc.isEmpty then [] else [acc.reverse]
  | c :: t, acc =>
    if pyIsSpace c then
      if acc.isEmpty then splitWsAux t [] else acc.reverse :: splitWsAux t []
    else splitWsAux t (c :: acc)

/-- Python `str.split()` with no argument, on strings. -/
def pySplit (s : String) : List String :=
  (splitWsAux s.data []).map (fun l => ⟨l⟩)

/-- Python `str.split(sep, 1)` for a single-character separator: split at
the first occurrence, returning the parts before and after it. Only used
when the separator is known to occur. -/
def splitAtFirst (sep : Char) : List Char → List Char × List Char
  | [] => ([], [])
  | c :: t =>
    if c = sep then ([], t)
    else
      let p := splitAtFirst sep t
      (c :: p.1, p.2)

/-! ## Python dict primitives

`current_options` and `config_values` are Python dicts keyed by strings.
They are modelled as ordered association lists with Python's semantics:
lookup finds the (unique) binding, assignment replaces an existing binding
in place or appends a new one, and iteration follows insertion order. -/

/-- Python `d.get(k, default)`. -/
def getD (l : List (String × String)) (k : String) (d : String) : String :=
  match l.find? (fun p => p.1 = k) with
  | some p => p.2
  | none => d

/-- Python `d[k] = v`: replace the binding for `k` in place, or append. -/
def setv : List (String × String) → String → String → List (String × String)
  | [], k, v => [(k, v)]
  | (k', v') :: t, k, v => if k' = k then (k, v) :: t else (k', v') :: setv t k v

/-! ## Data model (src/teemake.py lines 41-191) -/

/-- `PackageManager` enum (line 41). -/
inductive PackageManager where
  | APT
  | DNF
  | YUM
  | PACMAN
  | ZYPPER
  | UNKNOWN
deriving DecidableEq, Repr

/-- `PackageManager.value` (the enum's string payloads, lines 43-48). -/
def PackageManager.value : PackageManager → String
  | .APT => "apt-get"
  | .DNF => "dnf"
  | .YUM => "yum"
  | .PACMAN => "pacman"
  | .ZYPPER => "zypper"
  | .UNKNOWN => "unknown"

/-- `GameMode` dataclass (line 51). `dependencies` maps a package-manager
id to that manager's dependency package string. -/
structure GameMode where
  name : String
  url : String
  dependencies : List (String × String)
  build_opts : List String
deriving DecidableEq, Repr

/-- `BuildOption` dataclass (line 60). `current_value` is the declared
default; `option_type` is one of "boolean", "string", "generator". -/
structure BuildOption where
  name : String
  description : String
  current_value : String
  option_type : String
deriving DecidableEq, Repr

/-- `ConfigSetting` dataclass (line 69). -/
structure ConfigSetting where
  key : String
  prompt : String
  default : String
  description : String
deriving DecidableEq, Repr

/-! ## Static catalogs (class attributes of `TeemakeBuilder`) -/

/-- The "Teeworlds" entry of `GAME_MODES` (line 83). -/
def teeworldsMode : GameMode :=
  { name := "Teeworlds"
    url := "https://github.com/teeworlds/teeworlds.git"
    dependencies :=
      [("apt-get", "libpnglite-dev libwavpack-dev"),
       ("dnf", "libpng-devel wavpack-devel"),
       ("yum", "libpng-devel wavpack-devel"),
       ("pacman", "libpng wavpack"),
       ("zypper", "libpng16-devel wavpack-devel")]
    build_opts := ["cmake", "../source/", "-DCLIENT=OFF", "-DSERVER=ON"] }

/-- The "DDNet" entry of `GAME_MODES` (line 95). -/
def ddnetMode : GameMode :=
  { name := "DDNet"
    url := "https://github.com/ddnet/ddnet.git"
    dependencies :=
      [("apt-get", "libvulkan-dev libsqlite3-dev libcurl4-openssl-dev"),
       ("dnf", "vulkan-devel sqlite-devel libcurl-devel"),
       ("yum", "vulkan-devel sqlite-devel libcurl-devel"),
       ("pacman", "vulkan-icd-loader sqlite curl"),
       ("zypper", "vulkan-devel sqlite3-devel libcurl-devel")]
    build_opts := ["cmake", "../source/", "-DCLIENT=OFF", "-DSERVER=ON"] }

/-- The "zCatch" entry of `GAME_MODES` (line 107). -/
def zcatchMode : GameMode :=
  { name := "zCatch"
    url := "https://github.com/jxsl13/zcatch.git"
    dependencies :=
      [("apt-get", "libcurl4-openssl-dev"),
       ("dnf", "libcurl-devel"),
       ("yum", "libcurl-devel"),
       ("pacman", "curl"),
       ("zypper", "libcurl-devel")]
    build_opts := ["cmake", "../source/", "-DCLIENT=OFF", "-DSERVER=ON"] }

/-- `TeemakeBuilder.GAME_MODES` (line 82). -/
def GAME_MODES : List GameMode :=
  [teeworldsMode, ddnetMode, zcatchMode]

/-- Build options for "Teeworlds" in `AVAILABLE_BUILD_OPTIONS` (line 123). -/
def teeworldsOptions : List BuildOption :=
  [⟨"-DCLIENT", "Build client", "OFF", "boolean"⟩,
   ⟨"-DSERVER", "Build server", "ON", "boolean"⟩,
   ⟨"-DMASTERSERVER", "Build masterserver", "OFF", "boolean"⟩,
   ⟨"-DTOOLS", "Build tools", "OFF", "boolean"⟩,
   ⟨"-DDEV", "Development mode", "OFF", "boolean"⟩,
   ⟨"-GNinja", "Use Ninja build system (faster)", "OFF", "generator"⟩]

/-- Build options for "DDNet" in `AVAILABLE_BUILD_OPTIONS` (line 131). -/
def ddnetOptions : List BuildOption :=
  [⟨"-DCLIENT", "Build client", "OFF", "boolean"⟩,
   ⟨"-DSERVER", "Build server", "ON", "boolean"⟩,
   ⟨"-DTOOLS", "Build tools", "OFF", "boolean"⟩,
   ⟨"-DMYSQL", "Enable MySQL support", "OFF", "boolean"⟩,
   ⟨"-DWEBSOCKETS", "Enable WebSocket support", "OFF", "boolean"⟩,
   ⟨"-DVIDEORECORDER", "Enable video recorder", "OFF", "boolean"⟩,
   ⟨"-DUPNP", "Enable UPnP support", "OFF", "boolean"⟩,
   ⟨"-DSTEAM", "Enable Steam integration", "OFF", "boolean"⟩,
   ⟨"-DPREFER_BUNDLED_LIBS", "Use bundled libraries", "OFF", "boolean"⟩,
   ⟨"-GNinja", "Use Ninja build system (faster)", "OFF", "generator"⟩]

/-- Build options for "zCatch" in `AVAILABLE_BUILD_OPTIONS` (line 143). -/
def zcatchOptions : List BuildOption :=
  [⟨"-DCLIENT", "Build client", "OFF", "boolean"⟩,
   ⟨"-DSERVER", "Build server", "ON", "boolean"⟩,
   ⟨"-DTOOLS", "Build tools", "OFF", "boolean"⟩,
   ⟨"-DDEV", "Development mode", "OFF", "boolean"⟩,
   ⟨"-GNinja", "Use Ninja build system (faster)", "OFF", "generator"⟩]

/-- `TeemakeBuilder.AVAILABLE_BUILD_OPTIONS` (line 122), keyed by game-mode
name. -/
def AVAILABLE_BUILD_OPTIONS : List (String × List BuildOption) :=
  [("Teeworlds", teeworldsOptions), ("DDNet", ddnetOptions), ("zCatch", zcatchOptions)]

/-- `dict.get` lookup in `AVAILABLE_BUILD_OPTIONS` with default `[]`
(line 561). -/
def optionsFor (modeName : String) : List BuildOption :=
  match AVAILABLE_BUILD_OPTIONS.find? (fun p => p.1 = modeName) with
  | some p => p.2
  | none => []

/-- `TeemakeBuilder.BASE_DEPS` (line 153). -/
def BASE_DEPS : List (String × String) :=
  [("apt-get", "build-essential cmake git python3 libfreetype6-dev libsdl2-dev"),
   ("dnf", "gcc gcc-c++ make cmake git python3 freetype-devel SDL2-devel"),
   ("yum", "gcc gcc-c++ make cmake git python3 freetype-devel SDL2-devel"),
   ("pacman", "base-devel cmake git python freetype2 sdl2"),
   ("zypper", "gcc gcc-c++ make cmake git python3 freetype2-devel libSDL2-devel")]

/-- `TeemakeBuilder.MIN_DISK_SPACE_MB` (line 162). -/
def MIN_DISK_SPACE_MB : ℚ := 2000

/-- `BASIC_CONFIG_SETTINGS` for "Teeworlds" (line 166). -/
def teeworldsSettings : List ConfigSetting :=
  [⟨"sv_name", "Server Name", "My Teeworlds Server", "The name of your server"⟩,
   ⟨"sv_port", "Server Port", "8303", "Port number (default: 8303)"⟩,
   ⟨"sv_max_clients", "Maximum Players", "16", "Maximum number of players"⟩,
   ⟨"sv_gametype", "Game Type", "dm", "Game type (dm, tdm, ctf)"⟩]

/-- `BASIC_CONFIG_SETTINGS` for "DDNet" (line 172). -/
def ddnetSettings : List ConfigSetting :=
  [⟨"sv_name", "Server Name", "My DDNet Server", "The name of your server"⟩,
   ⟨"sv_port", "Server Port", "8303", "Port number (default: 8303)"⟩,
   ⟨"sv_max_clients", "Maximum Players", "64", "Maximum number of players"⟩,
   ⟨"sv_gametype", "Game Type", "DDraceNetwork", "Game type"⟩]

/-- `BASIC_CONFIG_SETTINGS` for "zCatch" (line 178). -/
def zcatchSettings : List ConfigSetting :=
  [⟨"sv_name", "Server Name", "My zCatch Server", "The name of your server"⟩,
   ⟨"sv_port", "Server Port", "8303", "Port number (default: 8303)"⟩,
   ⟨"sv_max_clients", "Maximum Players", "16", "Maximum number of players"⟩,
   ⟨"sv_gametype", "Game Type", "zCatch", "Game type"⟩]

/-- `TeemakeBuilder.BASIC_CONFIG_SETTINGS` (line 165). -/
def BASIC_CONFIG_SETTINGS : List (String × List ConfigSetting) :=
  [("Teeworlds", teeworldsSettings), ("DDNet", ddnetSettings), ("zCatch", zcatchSettings)]

/-- `dict.get` lookup in `BASIC_CONFIG_SETTINGS` with default `[]`
(line 1024). -/
def settingsFor (modeName : String) : List ConfigSetting :=
  match BASIC_CONFIG_SETTINGS.find? (fun p => p.1 = modeName) with
  | some p => p.2
  | none => []

/-- The `ninja_packages` dict inside `install_dependencies` (line 844). -/
def ninja_packages : List (String × String) :=
  [("apt-get", "ninja-build"), ("dnf", "ninja-build"), ("yum", "ninja-build"),
   ("pacman", "ninja"), ("zypper", "ninja")]

/-! ## Command Runner (`TeemakeBuilder.run_command`, lines 353-441)

The external process is modelled by its observable behaviour: either
`subprocess.run` raises an exception while launching or supervising the
process (e.g. `FileNotFoundError`), or the process runs for some duration
and completes with a return code and captured streams. `subprocess.run`
raises `TimeoutExpired` exactly when a `timeout` argument was given and the
process runs longer than it. -/

/-- Observable behaviour of one external process launch. -/
inductive ProcBehavior where
  | raises (msg : String)
  | runs (duration : Nat) (returncode : Int) (stdout stderr : String)
deriving DecidableEq, Repr

/-- Result of `run_command` as seen by its caller: `Except.error msg` means
a Python exception propagates out of `run_command`; `Except.ok` is the
returned `(success, stdout, stderr)` tuple. -/
abbrev RunResult := Except String (Bool × String × String)

/-- `TeemakeBuilder.run_command` (lines 353-441).

In verbose mode (lines 374-392) `subprocess.run` is called with no
`timeout` and outside any try/except, so a launch exception propagates and
the process is waited for unconditionally. In quiet mode (lines 394-441)
the call carries `timeout=3600` and is wrapped in try/except: a
`TimeoutExpired` yields `(False, "", "Command timed out after 1 hour")`
(line 436) and any other exception `e` yields `(False, "", str(e))`
(line 441). -/
def run_command (verbose : Bool) (p : ProcBehavior) : RunResult :=
  if verbose then
    match p with
    | .raises msg => .error msg
    | .runs _ rc out err => .ok (rc = 0, out, err)
  else
    match p with
    | .raises msg => .ok (false, "", msg)
    | .runs d rc out err =>
      if 3600 < d then .ok (false, "", "Command timed out after 1 hour")
      else .ok (rc = 0, out, err)

/-! ## Server-name validation (`validate_server_name`, lines 443-467) -/

/-- A character of the class `[a-zA-Z0-9_-]`. -/
def isNameChar (c : Char) : Bool :=
  c.isAlpha || c.isDigit || c = '_' || c = '-'

/-- Python `re.match` of the pattern `^[a-zA-Z0-9_-]+` followed by the
end-of-string anchor (line 460). In Python the unanchored end symbol
matches at the very end of the string and also just before a single
trailing newline, so the pattern accepts a nonempty run of name characters
optionally followed by one final newline. -/
def matchesNamePattern (s : String) : Bool :=
  let cs := s.data
  (!cs.isEmpty && cs.all isNameChar)
    || (cs.getLast? = some '\n' && !cs.dropLast.isEmpty && cs.dropLast.all isNameChar)

/-- `TeemakeBuilder.validate_server_name` (lines 443-467). -/
def validate_server_name (name : String) : Bool :=
  if strContains name ".." || strContains name "/" || strContains name "\\" then false
  else if !matchesNamePattern name then false
  else if name.length < 1 || name.length > 64 then false
  else true

/-! ## Build-option customization (`customize_build_options`, lines 542-769)

The interactive sub-loop is embedded as a transition function on the loop
state (the `current_options` dict and the `use_ninja` flag), driven by the
list of strings the user enters. The loop exits when an entry strips to the
empty string or to `done` (case-insensitive); an exhausted input list is
the same exit. -/

/-- The mutable state of the customization loop: the `current_options`
dict (line 572) and the `use_ninja` flag (line 573). -/
structure LoopSt where
  current : List (String × String)
  use_ninja : Bool
deriving DecidableEq, Repr

/-- Initial loop state: every option maps to its declared default
(line 572), `use_ninja = False` (line 573). -/
def initState (available : List BuildOption) : LoopSt :=
  ⟨available.map (fun o => (o.name, o.current_value)), false⟩

/-- Truthy tokens (lines 634, 656, 682, 702). -/
def truthyTokens : List String := ["ON", "YES", "TRUE", "1"]

/-- The falsy half of the boolean token set. -/
def falsyTokens : List String := ["OFF", "NO", "FALSE", "0"]

/-- The eight accepted boolean tokens (lines 647, 694). -/
def boolTokens : List String :=
  ["ON", "OFF", "YES", "NO", "TRUE", "FALSE", "1", "0"]

/-- Apply a parsed `value` to a resolved option, per the option's kind.
This block appears verbatim twice in the source: once in the numeric-index
path (lines 632-663) and once in the option-name path (lines 680-708);
both copies perform exactly these updates. An invalid boolean value hits
`continue` (lines 653, 700), leaving the state unchanged. -/
def applyOptionValue (opt : BuildOption) (value : String) (st : LoopSt) : LoopSt :=
  if opt.option_type = "generator" then
    if memStr truthyTokens (pyUpper value) then
      ⟨setv st.current opt.name "ON",
       if opt.name = "-GNinja" then true else st.use_ninja⟩
    else
      ⟨setv st.current opt.name "OFF",
       if opt.name = "-GNinja" then false else st.use_ninja⟩
  else if opt.option_type = "boolean" then
    if memStr boolTokens (pyUpper value) then
      ⟨setv st.current opt.name
        (if memStr truthyTokens (pyUpper value) then "ON" else "OFF"),
       st.use_ninja⟩
    else st
  else
    ⟨setv st.current opt.name value, st.use_ninja⟩

/-- One iteration of the customization loop body on an already-stripped,
non-exit input `s` (lines 620-735). Inputs that only produce an error
message and a re-prompt leave the state unchanged. -/
def loopStep (available : List BuildOption) (st : LoopSt) (s : String) : LoopSt :=
  if hasChar s.data '=' then
    let p := splitAtFirst '=' s.data
    let option_part : String := ⟨stripList p.1⟩
    let value : String := ⟨stripList p.2⟩
    if pyIsDigit option_part then
      let idx := strToNat option_part
      if 1 ≤ idx ∧ idx ≤ available.length then
        match available[idx - 1]? with
        | some opt => applyOptionValue opt value st
        | none => st
      else st
    else
      match available.find? (fun o => o.name = option_part) with
      | some opt => applyOptionValue opt value st
      | none => st
  else if s = "-GNinja" then
    ⟨setv st.current "-GNinja" "ON", true⟩
  else st

/-- The customization loop (lines 575-735) over the list of user entries:
each entry is stripped (line 614); an empty or `done` entry exits
(line 616); otherwise the body runs and the loop continues. -/
def runLoop (available : List BuildOption) : LoopSt → List String → LoopSt
  | st, [] => st
  | st, i :: rest =>
    let s := pyStrip i
    if s = "" ∨ pyLower s = "done" then st
    else runLoop available (loopStep available st s) rest

/-- The `custom_options` list built after the loop (lines 737-749): walk
`available_options` in order, and for each option whose current value
differs from its declared default append `name` (generator options set ON)
or `name=value` (all other kinds). -/
def buildCustom : List BuildOption → List (String × String) → List String
  | [], _ => []
  | opt :: rest, current =>
    let current_val := getD current opt.name opt.current_value
    (if current_val ≠ opt.current_value then
      if opt.option_type = "generator" then
        if current_val = "ON" then [opt.name] else []
      else [opt.name ++ "=" ++ current_val]
     else []) ++ buildCustom rest current

/-- Final-command assembly after the loop exits (lines 737-769): if any
override was produced, start from `["cmake", "../source/"]`, append the
overrides, then append `-DCLIENT=OFF` / `-DSERVER=ON` unless some override
contains `-DCLIENT` / `-DSERVER` as a substring (lines 751-764); with no
overrides, return the mode's default list and `use_ninja = False`
(line 769). -/
def finalizeOptions (available : List BuildOption) (mode_build_opts : List String)
    (st : LoopSt) : List String × Bool :=
  let custom_options := buildCustom available st.current
  if custom_options.isEmpty then
    (mode_build_opts, false)
  else
    let build_command := ["cmake", "../source/"] ++ custom_options
    let has_client := custom_options.any (fun o => strContains o "-DCLIENT")
    let has_server := custom_options.any (fun o => strContains o "-DSERVER")
    let build_command := if !has_client then build_command ++ ["-DCLIENT=OFF"] else build_command
    let build_command := if !has_server then build_command ++ ["-DSERVER=ON"] else build_command
    (build_command, st.use_ninja)

/-- `TeemakeBuilder.customize_build_options` (lines 542-769), as a function
of the user's opt-in answer (line 553), the entries typed into the loop,
and the selected mode. Declining customization (line 558) and an empty
option table (line 569) both return the mode's default list unchanged. -/
def customize_build_options (wants_custom : Bool) (inputs : List String)
    (mode : GameMode) : List String × Bool :=
  if !wants_custom then
    (mode.build_opts, false)
  else
    let available := optionsFor mode.name
    if available.isEmpty then
      (mode.build_opts, false)
    else
      finalizeOptions available mode.build_opts (runLoop available (initState available) inputs)

/-! ## Dependency installation (lines 771-866) -/

/-- `TeemakeBuilder._get_install_command` (lines 771-801): per-manager
command word list, prefixed with `sudo` when not running as root, followed
by the whitespace-split dependency string. -/
def get_install_command (pm : PackageManager) (is_root : Bool)
    (dependencies : String) : Option (List String) :=
  match pm with
  | .APT =>
    some ((if is_root then ["apt-get", "install", "-y"]
           else ["sudo", "apt-get", "install", "-y"]) ++ pySplit dependencies)
  | .DNF =>
    some ((if is_root then ["dnf", "install", "-y"]
           else ["sudo", "dnf", "install", "-y"]) ++ pySplit dependencies)
  | .YUM =>
    some ((if is_root then ["yum", "install", "-y"]
           else ["sudo", "yum", "install", "-y"]) ++ pySplit dependencies)
  | .PACMAN =>
    some ((if is_root then ["pacman", "-S", "--noconfirm"]
           else ["sudo", "pacman", "-S", "--noconfirm"]) ++ pySplit dependencies)
  | .ZYPPER =>
    some ((if is_root then ["zypper", "install", "-y"]
           else ["sudo", "zypper", "install", "-y"]) ++ pySplit dependencies)
  | .UNKNOWN => none

/-- The install command assembled by `install_dependencies`
(lines 832-854): merge the base dependency string for the detected manager
(falling back to the APT entry), the mode's dependency string (same
fallback), and, when Ninja was selected, the manager's ninja package
(default "ninja-build"), then hand the merged string to
`_get_install_command`. For `UNKNOWN` the code returns before this point
without building a command. -/
def install_dependencies_cmd (pm : PackageManager) (mode : GameMode)
    (use_ninja is_root : Bool) : Option (List String) :=
  let pm_value := pm.value
  let base_deps := getD BASE_DEPS pm_value (getD BASE_DEPS "apt-get" "")
  let mode_deps := getD mode.dependencies pm_value (getD mode.dependencies "apt-get" "")
  let all_deps := base_deps ++ " " ++ mode_deps
  let all_deps := if use_ninja then all_deps ++ " " ++ getD ninja_packages pm_value "ninja-build"
                  else all_deps
  get_install_command pm is_root all_deps

/-! ## Build pipeline (`build_server`, lines 1248-1270)

The try/finally around the clone/configure/compile sequence is embedded as
a function of the three stages' outcomes. Each stage either returns a
success boolean or raises a Python exception that escapes the stage call;
the `finally` block performs `os.chdir(start_dir)` on every exit path.
Nothing inside the try block changes the Python process's working
directory (each `run_command` only passes `cwd` to the child process), so
the directory the `finally` restores is the `start_dir` captured at
line 1238. -/

/-- Outcome of one pipeline stage call. -/
inductive StageOutcome where
  | ok (success : Bool)
  | raises (msg : String)
deriving DecidableEq, Repr

/-- Observable result of the pipeline section of `build_server`
(lines 1248-1270): what it returns (or which exception it propagates),
which stages were invoked, and the process working directory after the
`finally` block ran. -/
structure PipeResult where
  result : Except String (Option String)
  configure_invoked : Bool
  compile_invoked : Bool
  final_cwd : String
deriving Repr

/-- The try/finally pipeline of `build_server` (lines 1248-1270): clone,
then configure, then compile, each gated on the previous stage's success;
any failure returns `None` and any exception propagates, and in all cases
the `finally` block restores the working directory to `start_dir`
(line 1269). -/
def build_server_pipeline (start_dir build_path : String)
    (cloneO configureO compileO : StageOutcome) : PipeResult :=
  match cloneO with
  | .raises m => ⟨.error m, false, false, start_dir⟩
  | .ok false => ⟨.ok none, false, false, start_dir⟩
  | .ok true =>
    match configureO with
    | .raises m => ⟨.error m, true, false, start_dir⟩
    | .ok false => ⟨.ok none, true, false, start_dir⟩
    | .ok true =>
      match compileO with
      | .raises m => ⟨.error m, true, true, start_dir⟩
      | .ok false => ⟨.ok none, true, true, start_dir⟩
      | .ok true => ⟨.ok (some build_path), true, true, start_dir⟩

/-! ## Config writer (`_basic_configuration` / `_save_config_file`,
lines 1013-1155) -/

/-- The `config_values` dict built by the collection loop of
`_basic_configuration` (lines 1041-1083): each setting's validated value is
stored under the setting's key, iterating the settings in declared order.
Keys within each mode's setting list are distinct, so the dict's iteration
order is exactly the declared order. -/
def collectConfig (settings : List ConfigSetting) (values : ConfigSetting → String) :
    List (String × String) :=
  settings.map (fun s => (s.key, values s))

/-- One serialized config line (lines 1136-1141): values of `sv_port` and
`sv_max_clients` are written unquoted, every other value is wrapped in
double quotes. -/
def configLine (key value : String) : String :=
  if key = "sv_port" ∨ key = "sv_max_clients" then
    key ++ " " ++ value
  else
    key ++ " \"" ++ value ++ "\""

/-- The header written by `_save_config_file` (lines 1131-1134): three
comment lines and a blank separator line. -/
def configHeader (modeName : String) : List String :=
  ["// Teeworlds Server Configuration",
   "// Generated by TEEMAKE v3.0",
   "// Game Mode: " ++ modeName,
   ""]

/-- The lines `_save_config_file` writes (lines 1130-1141): the header,
then one line per `config_values` entry in dict iteration order. -/
def save_config_lines (modeName : String) (config_values : List (String × String)) :
    List String :=
  configHeader modeName ++ config_values.map (fun kv => configLine kv.1 kv.2)

/-! ## Disk-space check (`check_disk_space`, lines 273-305) -/

/-- `TeemakeBuilder.check_disk_space` (lines 273-305), as a function of the
outcome of `shutil.disk_usage`: an exception makes the check return `True`
(line 305, "Continue anyway"); otherwise the free byte count is converted
to megabytes (true division, line 285) and compared with the 2000 MB
minimum (line 287). -/
def check_disk_space (usage : Except String ℚ) : Bool :=
  match usage with
  | .error _ => true
  | .ok free =>
    let available_mb := free / (1024 * 1024)
    if available_mb < MIN_DISK_SPACE_MB then false
    else true

/-! ## Spec-side formulations used by refinement claims -/

/-- The override a single option contributes after the loop, as the spec
phrases it: nothing when the current value equals the declared default,
the bare flag for a generator option set ON, `flag=value` otherwise. -/
def overrideOf (current : List (String × String)) (opt : BuildOption) : Option String :=
  let cv := getD current opt.name opt.current_value
  if cv = opt.current_value then none
  else if opt.option_type = "generator" then
    if cv = "ON" then some opt.name else none
  else some (opt.name ++ "=" ++ cv)

/-- The changed-option override list, in option-table order. -/
def overridesSpec (available : List BuildOption) (current : List (String × String)) :
    List String :=
  available.filterMap (overrideOf current)

/-- The final CMake argument list exactly as claim C3 states it: the
mode's default flag list, with every changed option's override appended,
and with `-DCLIENT=OFF` and `-DSERVER=ON` force-appended when not already
present among the appended overrides. -/
def claimedRebuild (mode : GameMode) (available : List BuildOption)
    (current : List (String × String)) : List String :=
  let ov := overridesSpec available current
  mode.build_opts ++ ov
    ++ (if ov.any (fun o => strContains o "-DCLIENT") then [] else ["-DCLIENT=OFF"])
    ++ (if ov.any (fun o => strContains o "-DSERVER") then [] else ["-DSERVER=ON"])

/-! ## Helper lemmas -/

theorem memStr_iff_mem (l : List String) (v : String) : memStr l v = true ↔ v ∈ l := by
  induction l with
  | nil => simp [memStr]
  | cons x t ih =>
    by_cases h : x = v
    · subst h; simp [memStr]
    · simp [memStr, h, ih, Ne.symm h]

theorem truthy_mem_bool {v : String} (h : memStr truthyTokens v = true) :
    memStr boolTokens v = true := by
  rw [memStr_iff_mem] at h ⊢
  rcases (by simpa [truthyTokens] using h : v = "ON" ∨ v = "YES" ∨ v = "TRUE" ∨ v = "1")
      with rfl | rfl | rfl | rfl <;> decide

theorem falsy_mem_bool {v : String} (h : memStr falsyTokens v = true) :
    memStr boolTokens v = true := by
  rw [memStr_iff_mem] at h ⊢
  rcases (by simpa [falsyTokens] using h : v = "OFF" ∨ v = "NO" ∨ v = "FALSE" ∨ v = "0")
      with rfl | rfl | rfl | rfl <;> decide

theorem falsy_not_truthy {v : String} (h : memStr falsyTokens v = true) :
    memStr truthyTokens v = false := by
  have h' := (memStr_iff_mem _ _).mp h
  rcases (by simpa [falsyTokens] using h' : v = "OFF" ∨ v = "NO" ∨ v = "FALSE" ∨ v = "0")
      with rfl | rfl | rfl | rfl <;> decide

theorem hasChar_append_right (a b : List Char) (c : Char) :
    hasChar (a ++ c :: b) c = true := by
  induction a with
  | nil => simp [hasChar]
  | cons x t ih => simp [hasChar, ih]

theorem splitAtFirst_append (a b : List Char) (h : hasChar a '=' = false) :
    splitAtFirst '=' (a ++ '=' :: b) = (a, b) := by
  induction a with
  | nil => simp [splitAtFirst]
  | cons x t ih =>
    simp only [hasChar, Bool.or_eq_false_iff, decide_eq_false_iff_not] at h
    simp [splitAtFirst, h.1, ih h.2]

theorem buildCustom_cons (opt : BuildOption) (rest : List BuildOption)
    (current : List (String × String)) :
    buildCustom (opt :: rest) current =
      (overrideOf current opt).toList ++ buildCustom rest current := by
  simp only [buildCustom, overrideOf]
  split_ifs <;> simp_all

theorem buildCustom_eq_overridesSpec (available : List BuildOption)
    (current : List (String × String)) :
    buildCustom available current = overridesSpec available current := by
  induction available with
  | nil => rfl
  | cons opt rest ih =>
    rw [buildCustom_cons, ih]
    simp only [overridesSpec, List.filterMap_cons]
    cases overrideOf current opt <;> simp

theorem buildCustom_nil_of_defaults (available : List BuildOption)
    (current : List (String × String))
    (h : ∀ opt ∈ available, getD current opt.name opt.current_value = opt.current_value) :
    buildCustom available current = [] := by
  induction available with
  | nil => rfl
  | cons opt rest ih =>
    have h0 := h opt (List.mem_cons_self opt rest)
    simp only [buildCustom, h0]
    simpa using ih (fun o ho => h o (List.mem_cons_of_mem opt ho))

/-! ## Claim theorems -/

/-- Claim C1 counterexample: in verbose mode a launch exception is NOT
captured — `run_command` propagates it to the caller instead of returning
the failure tuple `(False, "", message)`. -/
theorem run_command_verbose_exception_propagates :
    run_command true (.raises "boom") = .error "boom" ∧
    run_command true (.raises "boom") ≠ .ok (false, "", "boom") := by
  refine ⟨rfl, ?_⟩
  intro h
  exact Except.noConfusion h

/-- Claim C1 (amended): only in quiet mode does `run_command` capture a
process-launch exception and return the failure tuple
`(False, "", exception message)`; in verbose mode the exception propagates
to the caller. -/
theorem run_command_launch_exception :
    ∀ msg : String,
      run_command false (.raises msg) = .ok (false, "", msg) ∧
      run_command true (.raises msg) = .error msg :=
  fun _ => ⟨rfl, rfl⟩

/-- Claim C2 counterexample: in verbose mode no timeout is enforced — a
process running 7200 seconds still completes normally instead of producing
the synthetic "timed out" failure tuple. -/
theorem run_command_verbose_no_timeout :
    run_command true (.runs 7200 0 "out" "err") = .ok (true, "out", "err") ∧
    run_command true (.runs 7200 0 "out" "err") ≠
      .ok (false, "", "Command timed out after 1 hour") := by
  refine ⟨rfl, fun h => ?_⟩
  have h2 : (Except.ok (true, "out", "err") : RunResult) =
      .ok (false, "", "Command timed out after 1 hour") := h
  injection h2 with h3
  exact Bool.noConfusion (congrArg Prod.fst h3)

/-- Claim C2 (amended): the hard 3600-second timeout is enforced only in
quiet mode, where expiry yields the failure tuple
`(False, "", "Command timed out after 1 hour")`; in verbose mode
`subprocess.run` is invoked without a timeout and the command's completion
is returned no matter how long it ran. -/
theorem run_command_timeout_quiet_only :
    ∀ (d : Nat) (rc : Int) (out err : String),
      (3600 < d →
        run_command false (.runs d rc out err) =
          .ok (false, "", "Command timed out after 1 hour")) ∧
      run_command true (.runs d rc out err) = .ok (rc = 0, out, err) := by
  intro d rc out err
  refine ⟨fun h => ?_, rfl⟩
  simp [run_command, h]

/-- Claim C2 witness: a 7200-second process in quiet mode produces the
synthetic timeout failure tuple. -/
theorem run_command_timeout_quiet_only_witness :
    run_command false (.runs 7200 1 "out" "err") =
      .ok (false, "", "Command timed out after 1 hour") :=
  (run_command_timeout_quiet_only 7200 1 "out" "err").1 (by norm_num)

/-- Claim C5 (code-bug exhibit): `validate_server_name` accepts the
two-character name "a" followed by a newline, although the newline is
outside the allowed class `[A-Za-z0-9_-]`; Python's `re.match` end anchor
`\x24` also matches just before a single trailing newline, so the
validation regex is not a full anchor. -/
theorem validate_server_name_accepts_trailing_newline :
    validate_server_name "a\n" = true ∧ "a\n".data.all isNameChar = false := by
  exact ⟨rfl, rfl⟩

/-- Claim C8: in the build pipeline the compile stage is invoked only when
the configure stage succeeded (so a configure failure or exception
short-circuits compilation), and the working directory after the
try/finally equals the pre-pipeline `start_dir` on every exit path. -/
theorem pipeline_short_circuit_and_cwd_restore :
    ∀ (start_dir build_path : String) (cloneO configureO compileO : StageOutcome),
      ((build_server_pipeline start_dir build_path cloneO configureO compileO).compile_invoked
          = true → configureO = .ok true) ∧
      (build_server_pipeline start_dir build_path cloneO configureO compileO).final_cwd
        = start_dir := by
  intro s b c cf cp
  cases c with
  | raises m => exact ⟨fun h => (nomatch h), rfl⟩
  | ok bc =>
    cases bc with
    | false => exact ⟨fun h => (nomatch h), rfl⟩
    | true =>
      cases cf with
      | raises m2 => exact ⟨fun h => (nomatch h), rfl⟩
      | ok bcf =>
        cases bcf with
        | false => exact ⟨fun h => (nomatch h), rfl⟩
        | true =>
          cases cp with
          | raises m3 => exact ⟨fun _ => rfl, rfl⟩
          | ok bcp =>
            cases bcp with
            | false => exact ⟨fun _ => rfl, rfl⟩
            | true => exact ⟨fun _ => rfl, rfl⟩

/-- Claim C8 witness: with a failing configure stage the pipeline's
compile stage is not invoked, and the working directory is restored. -/
theorem pipeline_short_circuit_and_cwd_restore_witness :
    StageOutcome.ok true = StageOutcome.ok true ∧
    (build_server_pipeline "/work" "/work/my/server" (.ok true) (.ok true) (.ok false)).final_cwd
      = "/work" :=
  ⟨(pipeline_short_circuit_and_cwd_restore "/work" "/work/my/server"
      (.ok true) (.ok true) (.ok false)).1 (by decide),
   (pipeline_short_circuit_and_cwd_restore "/work" "/work/my/server"
      (.ok true) (.ok true) (.ok false)).2⟩

/-- Claim C10: an exception while querying free disk space makes
`check_disk_space` return True (the run proceeds unchecked); when the
query succeeds, the check fails exactly when the free space converted to
megabytes is below the 2000 MB minimum. -/
theorem check_disk_space_exception_lenient :
    (∀ msg : String, check_disk_space (.error msg) = true) ∧
    (∀ free : ℚ, check_disk_space (.ok free) = false ↔ free / (1024 * 1024) < MIN_DISK_SPACE_MB) := by
  refine ⟨fun _ => rfl, fun free => ?_⟩
  simp only [check_disk_space]
  split <;> simp_all

/-- Claim C10 witness: a concrete exception yields True, and 1000 MB of
free space yields False. -/
theorem check_disk_space_exception_lenient_witness :
    check_disk_space (.error "statvfs failed") = true ∧
    check_disk_space (.ok 1048576000) = false :=
  ⟨check_disk_space_exception_lenient.1 "statvfs failed",
   (check_disk_space_exception_lenient.2 1048576000).mpr (by norm_num [MIN_DISK_SPACE_MB])⟩

/-- The per-manager install subcommand words actually used by
`_get_install_command`. -/
def pmInstallArgs : PackageManager → List String
  | .APT => ["apt-get", "install", "-y"]
  | .DNF => ["dnf", "install", "-y"]
  | .YUM => ["yum", "install", "-y"]
  | .PACMAN => ["pacman", "-S", "--noconfirm"]
  | .ZYPPER => ["zypper", "install", "-y"]
  | .UNKNOWN => []

/-- Claim C4 counterexample: for PACMAN the assembled install command is
`sudo pacman -S --noconfirm <packages>`, not the claimed
`sudo pacman install -y <packages>` — its first four words differ from
what the claim requires. -/
theorem pacman_install_not_install_y :
    install_dependencies_cmd .PACMAN teeworldsMode false false =
      some ["sudo", "pacman", "-S", "--noconfirm", "base-devel", "cmake", "git",
            "python", "freetype2", "sdl2", "libpng", "wavpack"] ∧
    (["sudo", "pacman", "-S", "--noconfirm", "base-devel", "cmake", "git",
      "python", "freetype2", "sdl2", "libpng", "wavpack"] : List String).take 4 =
      ["sudo", "pacman", "-S", "--noconfirm"] ∧
    (["sudo", "pacman", "-S", "--noconfirm"] : List String) ≠
      ["sudo", "pacman", "install", "-y"] := by
  refine ⟨rfl, rfl, by decide⟩

/-- Claim C4 (amended): for every detected supported package manager and
catalog mode, the dependency-installation command is the manager's
subcommand words (`<pm> install -y` for APT, DNF, YUM and ZYPPER, but
`pacman -S --noconfirm` for PACMAN) followed by the merged package list —
base packages, then mode packages, then the manager's ninja package when
Ninja was selected — prefixed with `sudo` exactly when not running as
root. -/
theorem install_command_structure :
    ∀ (pm : PackageManager) (mode : GameMode) (use_ninja is_root : Bool),
      pm ≠ .UNKNOWN → mode ∈ GAME_MODES →
      install_dependencies_cmd pm mode use_ninja is_root =
        some ((if is_root then [] else ["sudo"]) ++ pmInstallArgs pm
          ++ pySplit (getD BASE_DEPS pm.value "")
          ++ pySplit (getD mode.dependencies pm.value "")
          ++ (if use_ninja then [getD ninja_packages pm.value "ninja-build"] else [])) := by
  intro pm mode un ir hpm hmode
  have hm : mode = teeworldsMode ∨ mode = ddnetMode ∨ mode = zcatchMode := by
    simpa [GAME_MODES] using hmode
  rcases hm with rfl | rfl | rfl <;> cases pm <;>
    first
      | exact absurd rfl hpm
      | (cases un <;> cases ir <;> rfl)

/-- Claim C4 witness: APT, Teeworlds, Ninja selected, not root. -/
theorem install_command_structure_witness :
    install_dependencies_cmd .APT teeworldsMode true false =
      some ["sudo", "apt-get", "install", "-y", "build-essential", "cmake", "git",
            "python3", "libfreetype6-dev", "libsdl2-dev", "libpnglite-dev",
            "libwavpack-dev", "ninja-build"] :=
  (install_command_structure .APT teeworldsMode true false (by decide)
    (List.mem_cons_self _ _)).trans (by rfl)

/-- Claim C9: config-file serialization is the `//`-prefixed comment
header followed by one `key value` line per collected setting, in declared
setting order; `sv_port` and `sv_max_clients` values are written unquoted,
every other value is wrapped in double quotes. -/
theorem config_serialization_shape :
    ∀ (modeName : String) (settings : List ConfigSetting) (values : ConfigSetting → String),
      save_config_lines modeName (collectConfig settings values) =
        configHeader modeName ++ settings.map (fun s => configLine s.key (values s)) ∧
      (∀ l ∈ configHeader modeName, l = "" ∨ l.data.take 2 = ['/', '/']) ∧
      (∀ (s : ConfigSetting) (v : String),
        (s.key = "sv_port" ∨ s.key = "sv_max_clients" →
          configLine s.key v = s.key ++ " " ++ v) ∧
        (¬(s.key = "sv_port" ∨ s.key = "sv_max_clients") →
          configLine s.key v = s.key ++ " \"" ++ v ++ "\"")) := by
  intro modeName settings values
  refine ⟨?_, ?_, ?_⟩
  · simp [save_config_lines, collectConfig, List.map_map, Function.comp]
  · intro l hl
    simp only [configHeader, List.mem_cons, List.not_mem_nil, or_false] at hl
    rcases hl with rfl | rfl | rfl | rfl
    · right; rfl
    · right; rfl
    · right
      show (("// Game Mode: " ++ modeName).data.take 2) = ['/', '/']
      rw [String.data_append]
      rfl
    · left; rfl
  · intro s v
    constructor
    · intro h; simp [configLine, h]
    · intro h; simp [configLine, h]

/-- Claim C9 witness: the Teeworlds settings with their declared defaults
serialize to the expected lines — in particular `sv_port 8303` unquoted
and `sv_name "My Teeworlds Server"` quoted. -/
theorem config_serialization_shape_witness :
    save_config_lines "Teeworlds" (collectConfig teeworldsSettings (fun s => s.default)) =
      ["// Teeworlds Server Configuration",
       "// Generated by TEEMAKE v3.0",
       "// Game Mode: Teeworlds",
       "",
       "sv_name \"My Teeworlds Server\"",
       "sv_port 8303",
       "sv_max_clients 16",
       "sv_gametype \"dm\""] :=
  ((config_serialization_shape "Teeworlds" teeworldsSettings (fun s => s.default)).1).trans
    (by rfl)

/-- Claim C7: declining customization returns the mode's unmodified
default argument list, and entering the loop and exiting with every option
still at its declared default also returns exactly the mode's unmodified
default argument list. -/
theorem customize_defaults_identity :
    (∀ (mode : GameMode) (inputs : List String),
        customize_build_options false inputs mode = (mode.build_opts, false)) ∧
    (∀ (mode : GameMode) (inputs : List String),
        (∀ opt ∈ optionsFor mode.name,
          getD (runLoop (optionsFor mode.name) (initState (optionsFor mode.name)) inputs).current
              opt.name opt.current_value = opt.current_value) →
        customize_build_options true inputs mode = (mode.build_opts, false)) := by
  constructor
  · intro mode inputs; rfl
  · intro mode inputs h
    by_cases he : (optionsFor mode.name).isEmpty
    · simp [customize_build_options, he]
    · have hc : buildCustom (optionsFor mode.name)
          (runLoop (optionsFor mode.name) (initState (optionsFor mode.name)) inputs).current
          = [] :=
        buildCustom_nil_of_defaults _ _ h
      simp [customize_build_options, he, finalizeOptions, hc]

/-- Claim C7 witness: entering the Teeworlds customization loop and
exiting immediately yields the unmodified default argument list. -/
theorem customize_defaults_identity_witness :
    customize_build_options true [] teeworldsMode = (teeworldsMode.build_opts, false) :=
  customize_defaults_identity.2 teeworldsMode [] (by decide)

/-- Claim C3 counterexample: with only `-DTOOLS` changed to ON for
Teeworlds, the code returns `cmake ../source/ -DTOOLS=ON -DCLIENT=OFF
-DSERVER=ON`, while the claim's rebuild — the mode's default flag list
with the override and the forced flags appended — would give a different,
longer list that repeats the default `-DCLIENT=OFF -DSERVER=ON`. -/
theorem customize_rebuild_counterexample :
    customize_build_options true ["4=ON"] teeworldsMode =
      (["cmake", "../source/", "-DTOOLS=ON", "-DCLIENT=OFF", "-DSERVER=ON"], false) ∧
    claimedRebuild teeworldsMode teeworldsOptions
        (runLoop teeworldsOptions (initState teeworldsOptions) ["4=ON"]).current =
      ["cmake", "../source/", "-DCLIENT=OFF", "-DSERVER=ON", "-DTOOLS=ON",
       "-DCLIENT=OFF", "-DSERVER=ON"] ∧
    (["cmake", "../source/", "-DTOOLS=ON", "-DCLIENT=OFF", "-DSERVER=ON"] : List String) ≠
      ["cmake", "../source/", "-DCLIENT=OFF", "-DSERVER=ON", "-DTOOLS=ON",
       "-DCLIENT=OFF", "-DSERVER=ON"] := by
  refine ⟨rfl, rfl, by decide⟩

/-- Claim C3 (amended): when the customization loop exits with a nonempty
changed-option override list, the returned CMake argument list is
`cmake ../source/` followed by the overrides (`<flag>` for generator
options set ON, `<flag>=<value>` for boolean and string options, in option
-table order), with `-DCLIENT=OFF` and then `-DSERVER=ON` appended when no
appended override contains `-DCLIENT` (resp. `-DSERVER`) as a substring. -/
theorem customize_rebuild_structure :
    ∀ (mode : GameMode) (inputs : List String),
      overridesSpec (optionsFor mode.name)
        (runLoop (optionsFor mode.name) (initState (optionsFor mode.name)) inputs).current ≠ [] →
      customize_build_options true inputs mode =
        (let available := optionsFor mode.name
         let st := runLoop available (initState available) inputs
         let ov := overridesSpec available st.current
         (["cmake", "../source/"] ++ ov
            ++ (if ov.any (fun o => strContains o "-DCLIENT") then [] else ["-DCLIENT=OFF"])
            ++ (if ov.any (fun o => strContains o "-DSERVER") then [] else ["-DSERVER=ON"]),
          st.use_ninja)) := by
  intro mode inputs h
  have hav : (optionsFor mode.name).isEmpty = false := by
    cases ho : optionsFor mode.name with
    | nil =>
      rw [ho] at h
      exact absurd rfl h
    | cons a t => simp [ho]
  have hne : (overridesSpec (optionsFor mode.name)
      (runLoop (optionsFor mode.name) (initState (optionsFor mode.name)) inputs).current).isEmpty
      = false := by
    cases hov : overridesSpec (optionsFor mode.name)
        (runLoop (optionsFor mode.name) (initState (optionsFor mode.name)) inputs).current with
    | nil => exact absurd hov h
    | cons a t => rfl
  simp only [customize_build_options, Bool.not_true, Bool.false_eq_true, if_false, hav,
    finalizeOptions, buildCustom_eq_overridesSpec, hne]
  by_cases hc : (overridesSpec (optionsFor mode.name)
      (runLoop (optionsFor mode.name) (initState (optionsFor mode.name)) inputs).current).any
      (fun o => strContains o "-DCLIENT") <;>
    by_cases hs : (overridesSpec (optionsFor mode.name)
        (runLoop (optionsFor mode.name) (initState (optionsFor mode.name)) inputs).current).any
        (fun o => strContains o "-DSERVER") <;>
      simp [hc, hs, List.append_assoc]

/-- Claim C3 witness: changing `-DMASTERSERVER` to ON for Teeworlds yields
`cmake ../source/ -DMASTERSERVER=ON -DCLIENT=OFF -DSERVER=ON`. -/
theorem customize_rebuild_structure_witness :
    customize_build_options true ["3=ON"] teeworldsMode =
      (["cmake", "../source/", "-DMASTERSERVER=ON", "-DCLIENT=OFF", "-DSERVER=ON"], false) :=
  (customize_rebuild_structure teeworldsMode ["3=ON"] (by decide)).trans (by rfl)

theorem applyOptionValue_boolean (opt : BuildOption) (value : String) (st : LoopSt)
    (hb : opt.option_type = "boolean") :
    (memStr truthyTokens (pyUpper value) = true →
      applyOptionValue opt value st = ⟨setv st.current opt.name "ON", st.use_ninja⟩) ∧
    (memStr falsyTokens (pyUpper value) = true →
      applyOptionValue opt value st = ⟨setv st.current opt.name "OFF", st.use_ninja⟩) ∧
    (memStr boolTokens (pyUpper value) = false →
      applyOptionValue opt value st = st) := by
  have hgen : ¬ opt.option_type = "generator" := by rw [hb]; decide
  refine ⟨fun ht => ?_, fun hf => ?_, fun ho => ?_⟩
  · simp [applyOptionValue, hgen, hb, truthy_mem_bool ht, ht]
  · simp [applyOptionValue, hgen, hb, falsy_mem_bool hf, falsy_not_truthy hf]
  · simp [applyOptionValue, hgen, hb, ho]

/-- Claim C6: in the customization loop, a boolean-kind option selected by
1-based index or by flag name stores ON for a (case-insensitive) input
value among ON/YES/TRUE/1, stores OFF for one among OFF/NO/FALSE/0, and
leaves the state — in particular the option's prior value — unchanged for
any value outside the eight tokens. -/
theorem boolean_option_input_normalization :
    ∀ (available : List BuildOption) (st : LoopSt) (opt : BuildOption) (sel value : String),
      opt.option_type = "boolean" →
      stripList value.data = value.data →
      stripList sel.data = sel.data →
      hasChar sel.data '=' = false →
      ((pyIsDigit sel = true ∧ 1 ≤ strToNat sel ∧ strToNat sel ≤ available.length ∧
          available[strToNat sel - 1]? = some opt) ∨
        (pyIsDigit sel = false ∧ available.find? (fun o => o.name = sel) = some opt)) →
      ((memStr truthyTokens (pyUpper value) = true →
          loopStep available st (sel ++ "=" ++ value) =
            ⟨setv st.current opt.name "ON", st.use_ninja⟩) ∧
       (memStr falsyTokens (pyUpper value) = true →
          loopStep available st (sel ++ "=" ++ value) =
            ⟨setv st.current opt.name "OFF", st.use_ninja⟩) ∧
       (memStr boolTokens (pyUpper value) = false →
          loopStep available st (sel ++ "=" ++ value) = st)) := by
  intro available st opt sel value hb hvs hss hseq hsel
  obtain ⟨sd⟩ := sel
  obtain ⟨vd⟩ := value
  have hdata : ((⟨sd⟩ : String) ++ "=" ++ ⟨vd⟩).data = sd ++ '=' :: vd := by
    rw [String.data_append, String.data_append, List.append_assoc]
    rfl
  have hstep : loopStep available st ((⟨sd⟩ : String) ++ "=" ++ ⟨vd⟩) =
      applyOptionValue opt ⟨vd⟩ st := by
    have h1 : hasChar ((⟨sd⟩ : String) ++ "=" ++ ⟨vd⟩).data '=' = true := by
      rw [hdata]; exact hasChar_append_right _ _ _
    have h2 : splitAtFirst '=' ((⟨sd⟩ : String) ++ "=" ++ ⟨vd⟩).data = (sd, vd) := by
      rw [hdata]; exact splitAtFirst_append _ _ hseq
    simp only [loopStep, h1, if_true, h2, hss, hvs]
    rcases hsel with ⟨hd, hle, hlen, hget⟩ | ⟨hd, hfind⟩
    · simp only [hd, if_true, if_pos (And.intro hle hlen), hget]
    · simp only [hd, Bool.false_eq_true, if_false, hfind]
  obtain ⟨hA, hB, hC⟩ := applyOptionValue_boolean opt ⟨vd⟩ st hb
  exact ⟨fun h => hstep.trans (hA h), fun h => hstep.trans (hB h), fun h => hstep.trans (hC h)⟩

/-- Claim C6 witness: entering `4=yes` for Teeworlds (option 4 is the
boolean `-DTOOLS`) stores ON; entering `-DTOOLS=banana` leaves the state
unchanged. -/
theorem boolean_option_input_normalization_witness :
    loopStep teeworldsOptions (initState teeworldsOptions) "4=yes" =
      ⟨setv (initState teeworldsOptions).current "-DTOOLS" "ON",
       (initState teeworldsOptions).use_ninja⟩ ∧
    loopStep teeworldsOptions (initState teeworldsOptions) "-DTOOLS=banana" =
      initState teeworldsOptions :=
  ⟨(boolean_option_input_normalization teeworldsOptions (initState teeworldsOptions)
      ⟨"-DTOOLS", "Build tools", "OFF", "boolean"⟩ "4" "yes"
      rfl rfl rfl rfl (Or.inl (by decide))).1 (by decide),
   (boolean_option_input_normalization teeworldsOptions (initState teeworldsOptions)
      ⟨"-DTOOLS", "Build tools", "OFF", "boolean"⟩ "-DTOOLS" "banana"
      rfl rfl rfl rfl (Or.inr (by decide))).2.2 (by decide)⟩

end Teemake
